import Mathlib

/-!
Verification of the task-management REST API (Express + Mongoose + Joi).

The development shallowly embeds, from the repository's JavaScript source:
* the Joi validation schemas `createTaskSchema` / `updateTaskSchema`
  (validators/taskValidator.js) and the `validateRequest` middleware
  (validators/validateMiddleware.js);
* the Mongoose `Task` model (models/taskModel.js) and the four repository
  operations the controllers use, over an explicit in-memory store;
* the `AppError` class and error handlers (utils/errorHandler.js) and the
  global `errorHandler` middleware (middleware/errorMiddleware.js);
* the five route handlers of controllers/taskController.js, including the
  filter/sort/projection/pagination query construction of `getAllTasks`.

JavaScript string and number primitives used by that code (`trim`, `split`,
`join`, `parseInt`, template-string rendering of numbers, `||` defaulting)
are modelled by structurally recursive functions over `List Char` so that
every definition evaluates inside the kernel.
-/

namespace TaskApi

/-! ## JavaScript string / number primitives -/

/-- Whitespace characters recognised by JavaScript `String.prototype.trim`
(restricted to the ASCII whitespace that can occur in the payloads). -/
def isSpaceChar (c : Char) : Bool :=
  c = ' ' || c = '\t' || c = '\n' || c = '\r'

/-- Drop leading whitespace characters from a character list. -/
def dropLeadingSpace : List Char → List Char
  | [] => []
  | c :: cs => if isSpaceChar c then dropLeadingSpace cs else c :: cs

/-- Model of JavaScript `s.trim()`: remove leading and trailing whitespace. -/
def jsTrim (s : String) : String :=
  ⟨(dropLeadingSpace (dropLeadingSpace s.data.reverse).reverse)⟩

/-- JavaScript `s.length` (the payload strings are ASCII, so code units and
characters coincide). -/
def strLen (s : String) : Nat := s.data.length

/-- Accumulator loop for `jsSplit`. -/
def splitAux (sep : Char) : List Char → List Char → List (List Char)
  | [], cur => [cur.reverse]
  | c :: cs, cur =>
      if c = sep then cur.reverse :: splitAux sep cs []
      else splitAux sep cs (c :: cur)

/-- Model of JavaScript `s.split(sep)` for a one-character separator. -/
def jsSplit (sep : Char) (s : String) : List String :=
  (splitAux sep s.data []).map (fun l => ⟨l⟩)

/-- Model of JavaScript `parts.join(sep)`. -/
def jsJoin (sep : String) (parts : List String) : String :=
  match parts with
  | [] => ""
  | p :: ps => ps.foldl (fun acc q => acc ++ sep ++ q) p

/-- Decimal digits of a natural number (fuel-based so that the kernel can
evaluate it; the fuel `n+1` always suffices). -/
def natDigitsAux : Nat → Nat → List Char
  | 0, _ => []
  | fuel+1, n =>
      if n < 10 then [Char.ofNat (48 + n)]
      else natDigitsAux fuel (n / 10) ++ [Char.ofNat (48 + n % 10)]

/-- Decimal representation of a natural number, as JavaScript's
template-string interpolation `${n}` produces it. -/
def natDigits (n : Nat) : List Char := natDigitsAux (n + 1) n

/-- Model of the JavaScript test `` `${statusCode}`.startsWith('4') `` used
by the `AppError` constructor. -/
def statusCodeStartsWith4 (n : Nat) : Bool :=
  match natDigits n with
  | [] => false
  | c :: _ => c = '4'

/-- Accumulate a run of leading decimal digits; returns the value and
whether at least one digit was seen. -/
def takeDigitsAux : Nat → Bool → List Char → Nat × Bool
  | acc, seen, [] => (acc, seen)
  | acc, seen, c :: cs =>
      if c.isDigit then takeDigitsAux (acc * 10 + (c.toNat - 48)) true cs
      else (acc, seen)

/-- Parse a leading digit run; `none` when there is no digit (JavaScript
`parseInt` would yield `NaN`). -/
def parseDigitRun (l : List Char) : Option Nat :=
  match takeDigitsAux 0 false l with
  | (v, true) => some v
  | (_, false) => none

/-- Model of JavaScript `parseInt(s, 10)`: skip leading whitespace, accept an
optional sign, read the leading digit run, ignore the rest; `none` models
`NaN`. -/
def jsParseInt (s : String) : Option Int :=
  match dropLeadingSpace s.data with
  | '-' :: rest => (parseDigitRun rest).map (fun n => -(n : Int))
  | '+' :: rest => (parseDigitRun rest).map (fun n => (n : Int))
  | l => (parseDigitRun l).map (fun n => (n : Int))

/-- Model of the JavaScript defaulting idiom `x || d` applied to the result
of `parseInt`: both `NaN` (`none`) and `0` are falsy and yield the default. -/
def jsOrInt (o : Option Int) (d : Int) : Int :=
  match o with
  | none => d
  | some v => if v = 0 then d else v

/-- Model of JavaScript truthiness for a string value: the empty string is
falsy, every other string is truthy (`if (req.query.sort)` style guards). -/
def jsTruthy (s : String) : Bool := s != ""

/-! ## JSON values and HTTP responses -/

/-- JSON values appearing in response bodies. -/
inductive Json where
  | null
  | str (s : String)
  | num (n : Int)
  | bool (b : Bool)
  | arr (items : List Json)
  | obj (fields : List (String × Json))

/-- An HTTP response: a status code and an optional JSON body. -/
structure HttpResponse where
  statusCode : Nat
  body : Option Json
  deriving Inhabited

/-- Model of Express `res.status(code).json(payload)`: `res.send` strips the
body for 204 No Content and 304 Not Modified responses, so those status
codes produce an empty body on the wire. -/
def sendJson (code : Nat) (j : Json) : HttpResponse :=
  { statusCode := code, body := if code = 204 || code = 304 then none else some j }

/-- Look up a key in a JSON object. -/
def jsonField (j : Json) (k : String) : Option Json :=
  match j with
  | Json.obj fs => (fs.find? (fun kv => kv.1 = k)).map (fun kv => kv.2)
  | _ => none

/-- The `status` string of a response body, when present. -/
def respStatusString (r : HttpResponse) : Option String :=
  match r.body with
  | some b =>
      match jsonField b "status" with
      | some (Json.str s) => some s
      | _ => none
  | none => none

/-- Whether an HTTP status code is in the 4xx class. -/
def is4xx (n : Nat) : Bool := 400 ≤ n && n < 500

/-! ## Joi payload model (validators/taskValidator.js) -/

/-- A JSON value arriving in a request payload, as Joi sees it after its
type coercions: `jdate t` stands for an ISO-8601 date string that Joi's
`date().iso()` parses to the timestamp `t` (milliseconds). -/
inductive JVal where
  | jstr (s : String)
  | jbool (b : Bool)
  | jdate (t : Int)
  | jnum (n : Int)
  | jnull
  deriving DecidableEq

/-- A raw request body for the task schemas: each known field is present or
absent, and `unknown` carries the keys outside the schema (which
`stripUnknown: true` removes). -/
structure RawPayload where
  title : Option JVal := none
  description : Option JVal := none
  category : Option JVal := none
  priority : Option JVal := none
  deadline : Option JVal := none
  completed : Option JVal := none
  unknown : List (String × JVal) := []
  deriving DecidableEq

/-- One entry of the `errors` array produced by the validation middleware:
`{ field: detail.path.join('.'), message: detail.message }`. -/
structure FieldError where
  field : String
  message : String
  deriving DecidableEq

/-- The five legal category values of both schemas. -/
def categoryValues : List String := ["Work", "Personal", "Study", "Health", "Other"]

/-- The three legal priority values of both schemas. -/
def priorityValues : List String := ["Low", "Medium", "High"]

/-- `title: Joi.string().trim().min(3).max(100)`, `required` on create.
The `string.empty` message differs between the create schema
("Title is required") and the update schema ("Title cannot be empty"). -/
def checkTitle (required : Bool) (v : Option JVal) : List FieldError :=
  match v with
  | none => if required then [⟨"title", "Title is required"⟩] else []
  | some (JVal.jstr s) =>
      let t := jsTrim s
      if t = "" then
        [⟨"title", if required then "Title is required" else "Title cannot be empty"⟩]
      else if strLen t < 3 then [⟨"title", "Title must be at least 3 characters long"⟩]
      else if 100 < strLen t then [⟨"title", "Title cannot be more than 100 characters"⟩]
      else []
  | some _ => [⟨"title", "Title must be a string"⟩]

/-- `description: Joi.string().trim().max(500).allow('')`, always optional. -/
def checkDescription (v : Option JVal) : List FieldError :=
  match v with
  | none => []
  | some (JVal.jstr s) =>
      if 500 < strLen (jsTrim s) then
        [⟨"description", "Description cannot be more than 500 characters"⟩]
      else []
  | some _ => [⟨"description", "Description must be a string"⟩]

/-- `category: Joi.string().trim().valid('Work',...)`, `required` on create. -/
def checkCategory (required : Bool) (v : Option JVal) : List FieldError :=
  match v with
  | none => if required then [⟨"category", "Category is required"⟩] else []
  | some (JVal.jstr s) =>
      if categoryValues.contains (jsTrim s) then []
      else [⟨"category", "Category must be one of: Work, Personal, Study, Health, Other"⟩]
  | some _ => [⟨"category", "Category must be a string"⟩]

/-- `priority: Joi.string().trim().valid('Low','Medium','High')`, `required`
on create. -/
def checkPriority (required : Bool) (v : Option JVal) : List FieldError :=
  match v with
  | none => if required then [⟨"priority", "Priority is required"⟩] else []
  | some (JVal.jstr s) =>
      if priorityValues.contains (jsTrim s) then []
      else [⟨"priority", "Priority must be one of: Low, Medium, High"⟩]
  | some _ => [⟨"priority", "Priority must be a string"⟩]

/-- `deadline: Joi.date().iso().min('now')`, `required` on create. `min` is
inclusive, so the value fails exactly when it is strictly earlier than the
validation time `now`. A non-ISO string raises `date.format`; a non-string,
non-date value raises `date.base`. This rule appears in BOTH schemas: the
update schema at validators/taskValidator.js also carries `.min('now')`. -/
def checkDeadline (required : Bool) (now : Int) (v : Option JVal) : List FieldError :=
  match v with
  | none => if required then [⟨"deadline", "Deadline is required"⟩] else []
  | some (JVal.jdate t) =>
      if t < now then [⟨"deadline", "Deadline must be in the future"⟩] else []
  | some (JVal.jstr _) => [⟨"deadline", "Deadline must be in ISO format (YYYY-MM-DD)"⟩]
  | some _ => [⟨"deadline", "Deadline must be a valid date"⟩]

/-- `completed: Joi.boolean()`; with Joi's default conversion the strings
"true"/"false" are also accepted. -/
def checkCompleted (v : Option JVal) : List FieldError :=
  match v with
  | none => []
  | some (JVal.jbool _) => []
  | some (JVal.jstr s) =>
      if s = "true" || s = "false" then []
      else [⟨"completed", "Completed must be a boolean value"⟩]
  | some _ => [⟨"completed", "Completed must be a boolean value"⟩]

/-- The sanitized value of a successful create validation: trimmed strings,
stripped unknown keys, `completed` defaulted to `false`. -/
structure CreateFields where
  title : String
  description : Option String
  category : String
  priority : String
  deadline : Int
  completed : Bool
  deriving DecidableEq

/-- The sanitized value of a successful update validation: every field
optional, trimmed where present. -/
structure UpdateFields where
  title : Option String := none
  description : Option String := none
  category : Option String := none
  priority : Option String := none
  deadline : Option Int := none
  completed : Option Bool := none
  deriving DecidableEq

/-- Extract the trimmed string of a string-valued field. -/
def getStr (v : Option JVal) : Option String :=
  match v with
  | some (JVal.jstr s) => some (jsTrim s)
  | _ => none

/-- Extract the timestamp of a date-valued field. -/
def getDate (v : Option JVal) : Option Int :=
  match v with
  | some (JVal.jdate t) => some t
  | _ => none

/-- Extract a boolean field, honouring Joi's string-to-boolean conversion. -/
def getBool (v : Option JVal) : Option Bool :=
  match v with
  | some (JVal.jbool b) => some b
  | some (JVal.jstr "true") => some true
  | some (JVal.jstr "false") => some false
  | _ => none

/-- All errors of a create validation: Joi is run with `abortEarly: false`,
so every field is checked and all violations are collected in one pass. -/
def allCreateErrors (raw : RawPayload) (now : Int) : List FieldError :=
  checkTitle true raw.title ++ checkDescription raw.description ++
  checkCategory true raw.category ++ checkPriority true raw.priority ++
  checkDeadline true now raw.deadline ++ checkCompleted raw.completed

/-- The sanitized mapping produced on create success: unknown keys stripped
(structurally: `CreateFields` has no slot for them), strings trimmed,
`completed` defaulted to `false`. -/
def sanitizeCreate (raw : RawPayload) : CreateFields :=
  { title := (getStr raw.title).getD ""
    description := getStr raw.description
    category := (getStr raw.category).getD ""
    priority := (getStr raw.priority).getD ""
    deadline := (getDate raw.deadline).getD 0
    completed := (getBool raw.completed).getD false }

/-- `createTaskSchema.validate(body, { abortEarly: false, stripUnknown:
true })`, evaluated at validation time `now`. -/
def validateCreate (raw : RawPayload) (now : Int) : Except (List FieldError) CreateFields :=
  let errs := allCreateErrors raw now
  if errs = [] then Except.ok (sanitizeCreate raw) else Except.error errs

/-- The number of keys present in the payload, for the update schema's
`.min(1)` object rule. -/
def presentKeyCount (raw : RawPayload) : Nat :=
  (if raw.title.isSome then 1 else 0) + (if raw.description.isSome then 1 else 0) +
  (if raw.category.isSome then 1 else 0) + (if raw.priority.isSome then 1 else 0) +
  (if raw.deadline.isSome then 1 else 0) + (if raw.completed.isSome then 1 else 0) +
  raw.unknown.length

/-- All errors of an update validation: the same per-field rules with
`required` off — including the `deadline` `.min('now')` rule — plus the
`.min(1)` object rule ("At least one field must be provided for update",
whose `detail.path` is empty, so its `field` is the empty string). -/
def allUpdateErrors (raw : RawPayload) (now : Int) : List FieldError :=
  (checkTitle false raw.title ++ checkDescription raw.description ++
   checkCategory false raw.category ++ checkPriority false raw.priority ++
   checkDeadline false now raw.deadline ++ checkCompleted raw.completed) ++
  (if presentKeyCount raw = 0 then
    [⟨"", "At least one field must be provided for update"⟩] else [])

/-- The sanitized mapping produced on update success. -/
def sanitizeUpdate (raw : RawPayload) : UpdateFields :=
  { title := getStr raw.title
    description := getStr raw.description
    category := getStr raw.category
    priority := getStr raw.priority
    deadline := getDate raw.deadline
    completed := getBool raw.completed }

/-- `updateTaskSchema.validate(body, { abortEarly: false, stripUnknown:
true })`, evaluated at validation time `now`. -/
def validateUpdate (raw : RawPayload) (now : Int) : Except (List FieldError) UpdateFields :=
  let errs := allUpdateErrors raw now
  if errs = [] then Except.ok (sanitizeUpdate raw) else Except.error errs

/-- The 400 response produced by `validateRequest` when the schema reports
errors: `{ status: 'error', message: 'Validation error', errors: [...] }`. -/
def validationErrorResponse (errs : List FieldError) : HttpResponse :=
  sendJson 400 (Json.obj
    [("status", Json.str "error"), ("message", Json.str "Validation error"),
     ("errors", Json.arr (errs.map
        (fun e => Json.obj [("field", Json.str e.field), ("message", Json.str e.message)])))])

/-! ## Task store and Mongoose model (models/taskModel.js) -/

/-- A persisted task document. `id` models the store-generated `_id`;
`createdAt`/`updatedAt` come from `timestamps: true`. -/
structure Task where
  id : Nat
  title : String
  description : Option String
  category : String
  priority : String
  deadline : Int
  completed : Bool
  createdAt : Int
  updatedAt : Int
  deriving DecidableEq

/-- The in-memory document store: the task collection plus the next fresh
identifier. -/
structure Store where
  tasks : List Task
  nextId : Nat
  deriving DecidableEq

/-- Messages of the Mongoose schema validators run by `Task.create` on a new
document: `required`/`maxlength` for title and description, `required`/`enum`
for category and priority, and the deadline validator, which on a NEW
document (`this.isNew`) demands `value > Date.now()`. -/
def mongooseCreateErrors (f : CreateFields) (now : Int) : List String :=
  (if jsTrim f.title = "" then ["Task title is required"] else []) ++
  (if 100 < strLen (jsTrim f.title) then
    ["Task title cannot be more than 100 characters"] else []) ++
  (match f.description with
   | some d =>
      if 500 < strLen (jsTrim d) then
        ["Task description cannot be more than 500 characters"] else []
   | none => []) ++
  (if jsTrim f.category = "" then ["Task category is required"]
   else if categoryValues.contains (jsTrim f.category) then []
   else ["Category must be one of: Work, Personal, Study, Health, Other"]) ++
  (if f.priority = "" then ["Task priority is required"]
   else if priorityValues.contains f.priority then []
   else ["Priority must be one of: Low, Medium, High"]) ++
  (if now < f.deadline then [] else ["Deadline must be a future date"])

/-- `Task.create(fields)`: run the schema validators; on success persist a
new document with a fresh id, the schema's trims applied (title,
description and category carry `trim: true`; priority does not), and both
timestamps set. On failure the promise rejects with a Mongoose
`ValidationError` carrying the validator messages. -/
def repoCreate (f : CreateFields) (now : Int) (st : Store) :
    Except (List String) (Task × Store) :=
  let errs := mongooseCreateErrors f now
  if errs = [] then
    let t : Task :=
      { id := st.nextId, title := jsTrim f.title,
        description := f.description.map jsTrim,
        category := jsTrim f.category, priority := f.priority,
        deadline := f.deadline, completed := f.completed,
        createdAt := now, updatedAt := now }
    Except.ok (t, { tasks := st.tasks ++ [t], nextId := st.nextId + 1 })
  else Except.error errs

/-- The document `repoCreate` persists for sanitized fields `f` at time
`now` (spelled out for reuse in statements about the create pipeline). -/
def mkCreated (f : CreateFields) (now : Int) (st : Store) : Task :=
  { id := st.nextId, title := jsTrim f.title, description := f.description.map jsTrim,
    category := jsTrim f.category, priority := f.priority, deadline := f.deadline,
    completed := f.completed, createdAt := now, updatedAt := now }

/-- `Task.findById(id)`: the first document with the given id, if any. -/
def findById (st : Store) (i : Nat) : Option Task :=
  st.tasks.find? (fun t => t.id = i)

/-- Apply a sanitized update to a document: set each supplied field (the
schema trims title, description and category again) and refresh
`updatedAt`. -/
def applyUpdate (u : UpdateFields) (now : Int) (t : Task) : Task :=
  { t with
    title := (u.title.map jsTrim).getD t.title
    description := match u.description with
      | some d => some (jsTrim d)
      | none => t.description
    category := (u.category.map jsTrim).getD t.category
    priority := u.priority.getD t.priority
    deadline := u.deadline.getD t.deadline
    completed := u.completed.getD t.completed
    updatedAt := now }

/-- `Task.findByIdAndUpdate(id, fields, { new: true, runValidators: true })`:
absent id yields `null` and leaves the store unchanged; otherwise the
matching document is updated in place and the UPDATED document is returned
(`new: true`). The re-run validators cannot fail here because the fields
come from a successful Joi validation, whose constraints subsume the
schema's (and the schema's deadline validator accepts any value when
`isNew` is false). -/
def findByIdAndUpdate (st : Store) (i : Nat) (u : UpdateFields) (now : Int) :
    Option Task × Store :=
  match findById st i with
  | none => (none, st)
  | some t =>
      let t' := applyUpdate u now t
      (some t', { st with tasks := st.tasks.map (fun x => if x.id = i then t' else x) })

/-- `Task.findByIdAndDelete(id)`: absent id yields `null`; otherwise the
matching document is removed and returned. -/
def findByIdAndDelete (st : Store) (i : Nat) : Option Task × Store :=
  match findById st i with
  | none => (none, st)
  | some t => (some t, { st with tasks := st.tasks.filter (fun x => x.id ≠ i) })

/-! ## Error layer (utils/errorHandler.js, middleware/errorMiddleware.js) -/

/-- The `AppError` class: `status` is `'fail'` when the DECIMAL RENDERING of
`statusCode` starts with the character `'4'`, `'error'` otherwise, and
`isOperational` is always set. -/
structure AppError where
  message : String
  statusCode : Nat
  status : String
  isOperational : Bool
  deriving DecidableEq

/-- The `AppError` constructor. -/
def mkAppError (message : String) (statusCode : Nat) : AppError :=
  { message := message, statusCode := statusCode,
    status := if statusCodeStartsWith4 statusCode then "fail" else "error",
    isOperational := true }

/-- The shape of an arbitrary error reaching the global `errorHandler`
middleware, with the structural facts the middleware inspects:
`isCastError`/`isValidationError` model the `instanceof` tests,
`code = some 11000` the duplicate-key test, and `isSyntaxError` the
conjunction `err instanceof SyntaxError && err.status === 400 &&
'body' in err` of the malformed-JSON test. -/
structure ErrShape where
  message : String
  statusCode : Option Nat := none
  status : Option String := none
  isOperational : Bool := false
  isCastError : Bool := false
  castPath : String := ""
  castValue : String := ""
  isValidationError : Bool := false
  validationMessages : List String := []
  code : Option Nat := none
  errmsgValue : String := ""
  isSyntaxError : Bool := false
  errorsField : Option Json := none
  stack : String := ""
  deriving Inhabited

/-- The error value handed to the generic `handleError`, after the
middleware's reassignments. -/
structure GenericErr where
  message : String
  statusCode : Option Nat
  status : Option String
  errors : Option Json
  stack : String

/-- `handleCastError`: `new AppError('Invalid <path>: <value>', 400)`. -/
def handleCastError (e : ErrShape) : AppError :=
  mkAppError ("Invalid " ++ e.castPath ++ ": " ++ e.castValue) 400

/-- `handleValidationError`: joins all sub-error messages with '. '. -/
def handleValidationError (e : ErrShape) : AppError :=
  mkAppError ("Invalid input data: " ++ jsJoin ". " e.validationMessages) 400

/-- `handleDuplicateFieldError`: names the value matched by the regex. -/
def handleDuplicateFieldError (e : ErrShape) : AppError :=
  mkAppError ("Duplicate field value: " ++ e.errmsgValue ++ ". Please use another value.") 400

/-- View an `AppError` as the generic error shape, keeping the stack of the
original error. -/
def appErrorToGeneric (a : AppError) (stack : String) : GenericErr :=
  { message := a.message, statusCode := some a.statusCode,
    status := some a.status, errors := none, stack := stack }

/-- `handleError(err, res)`: defaults `statusCode` to 500 and `status` to
'error', echoes `message`, attaches `errors` when present, and attaches the
stack trace exactly when `NODE_ENV === 'development'`. -/
def handleError (g : GenericErr) (env : String) : HttpResponse :=
  sendJson (g.statusCode.getD 500) (Json.obj
    ([("status", Json.str (g.status.getD "error")), ("message", Json.str g.message)] ++
     (match g.errors with | some e => [("errors", e)] | none => []) ++
     (if env = "development" then [("stack", Json.str g.stack)] else [])))

/-- The global `errorHandler(err, req, res, next)` middleware. The three
classifier reassignments write the translated `AppError` into the local
`error` variable, in source order (cast, then validation, then duplicate
key, so a later match overwrites an earlier one); the malformed-JSON and
operational branches return early, testing the ORIGINAL `err`; everything
else falls through to `handleError(error, res)`. The operational branch
reads `err.statusCode` directly, which an `AppError` always sets. -/
def errorHandler (e : ErrShape) (env : String) : HttpResponse :=
  let error0 : GenericErr :=
    { message := e.message, statusCode := e.statusCode, status := e.status,
      errors := e.errorsField, stack := e.stack }
  let error1 := if e.isCastError then appErrorToGeneric (handleCastError e) e.stack else error0
  let error2 :=
    if e.isValidationError then appErrorToGeneric (handleValidationError e) e.stack else error1
  let error3 :=
    if e.code = some 11000 then appErrorToGeneric (handleDuplicateFieldError e) e.stack else error2
  if e.isSyntaxError then
    sendJson 400 (Json.obj
      [("status", Json.str "error"), ("message", Json.str ("Invalid JSON: " ++ e.message))])
  else if e.isOperational then
    sendJson (e.statusCode.getD 500) (Json.obj
      [("status", Json.str (e.status.getD "error")), ("message", Json.str e.message)])
  else handleError error3 env

/-- The error shape of a raised `AppError` (as produced by `next(new
AppError(...))` in the controllers). -/
def appErrorShape (a : AppError) : ErrShape :=
  { message := a.message, statusCode := some a.statusCode,
    status := some a.status, isOperational := a.isOperational }

/-- The error shape of a rejected Mongoose `ValidationError` (as thrown by
`Task.create` and caught by `asyncHandler`). -/
def mongooseValidationShape (msgs : List String) : ErrShape :=
  { message := "Task validation failed", isValidationError := true,
    validationMessages := msgs }

/-! ## Controllers (controllers/taskController.js) -/

/-- The success envelope `{ status: 'success', data: { task } }` payload for
a task, with the document rendered as Mongoose serialises it (`description`
omitted when absent). -/
def taskJson (t : Task) : Json :=
  Json.obj
    ([("_id", Json.num (t.id : Int)), ("title", Json.str t.title)] ++
     (match t.description with
      | some d => [("description", Json.str d)]
      | none => []) ++
     [("category", Json.str t.category), ("priority", Json.str t.priority),
      ("deadline", Json.num t.deadline), ("completed", Json.bool t.completed),
      ("createdAt", Json.num t.createdAt), ("updatedAt", Json.num t.updatedAt)])

/-- `{ status: 'success', data: { task } }`. -/
def successTaskBody (t : Task) : Json :=
  Json.obj [("status", Json.str "success"), ("data", Json.obj [("task", taskJson t)])]

/-- POST /tasks: `validateRequest(createTaskSchema)` then
`taskController.createTask`. Returns the response, the resulting store, and
whether a repository operation was invoked (on validation failure the
middleware responds before the controller runs, so the repository is never
reached). -/
def postTask (raw : RawPayload) (now : Int) (st : Store) (env : String) :
    HttpResponse × Store × Bool :=
  match validateCreate raw now with
  | Except.error errs => (validationErrorResponse errs, st, false)
  | Except.ok body =>
      match repoCreate body now st with
      | Except.ok (t, st2) => (sendJson 201 (successTaskBody t), st2, true)
      | Except.error msgs => (errorHandler (mongooseValidationShape msgs) env, st, true)

/-- GET /tasks/:id: `findById`, absent result turned into
`next(new AppError('Task not found', 404))`. -/
def getTaskEndpoint (i : Nat) (st : Store) (env : String) : HttpResponse :=
  match findById st i with
  | none => errorHandler (appErrorShape (mkAppError "Task not found" 404)) env
  | some t => sendJson 200 (successTaskBody t)

/-- PUT /tasks/:id: `validateRequest(updateTaskSchema)` then
`taskController.updateTask`. The Bool records whether the repository was
reached. -/
def putTask (i : Nat) (raw : RawPayload) (now : Int) (st : Store) (env : String) :
    HttpResponse × Store × Bool :=
  match validateUpdate raw now with
  | Except.error errs => (validationErrorResponse errs, st, false)
  | Except.ok u =>
      match findByIdAndUpdate st i u now with
      | (none, st2) =>
          (errorHandler (appErrorShape (mkAppError "Task not found" 404)) env, st2, true)
      | (some t, st2) => (sendJson 200 (successTaskBody t), st2, true)

/-- DELETE /tasks/:id: `findByIdAndDelete`, absent result turned into a 404;
present result answered with `res.status(204).json(...)`, whose body the
transport strips. -/
def deleteTaskEndpoint (i : Nat) (st : Store) (env : String) : HttpResponse × Store :=
  match findByIdAndDelete st i with
  | (none, st2) => (errorHandler (appErrorShape (mkAppError "Task not found" 404)) env, st2)
  | (some _, st2) =>
      (sendJson 204 (Json.obj [("status", Json.str "success"), ("data", Json.null)]), st2)

/-! ## List endpoint: query construction and execution (getAllTasks) -/

/-- A request query string, as the assoc list Express exposes via
`req.query` (keys are unique in practice). -/
def QueryParams := List (String × String)

/-- Read one query parameter. -/
def lookupQ (q : QueryParams) (k : String) : Option String :=
  (List.find? (fun kv => kv.1 = k) q).map (fun kv => kv.2)

/-- The reserved control parameters deleted from the filter object:
`const excludedFields = ['page', 'sort', 'limit', 'fields']`. -/
def excludedFields : List String := ["page", "sort", "limit", "fields"]

/-- The query `getAllTasks` hands to the repository: an exact-match filter,
a Mongoose sort string, a Mongoose projection string, and the pagination
numbers. -/
structure ListQuery where
  filter : List (String × String)
  sortStr : String
  projStr : String
  page : Int
  limit : Int
  skip : Int
  deriving DecidableEq

/-- Lines 24-57 of the controller: copy `req.query`, delete the excluded
keys, turn `sort`/`fields` from comma-separated to space-separated, and
compute `page = parseInt(req.query.page, 10) || 1`,
`limit = parseInt(req.query.limit, 10) || 10`, `skip = (page-1)*limit`.
The sort and projection branches are guarded by JS truthiness
(`if (req.query.sort)` / `if (req.query.fields)`), so an absent OR empty
parameter falls back to the defaults `'deadline'` and `'-__v'`. -/
def buildListQuery (q : QueryParams) : ListQuery :=
  let filter := List.filter (fun kv => !(excludedFields.contains kv.1)) q
  let sortStr :=
    match lookupQ q "sort" with
    | some s => if jsTruthy s then jsJoin " " (jsSplit ',' s) else "deadline"
    | none => "deadline"
  let projStr :=
    match lookupQ q "fields" with
    | some s => if jsTruthy s then jsJoin " " (jsSplit ',' s) else "-__v"
    | none => "-__v"
  let page := jsOrInt ((lookupQ q "page").bind jsParseInt) 1
  let limit := jsOrInt ((lookupQ q "limit").bind jsParseInt) 10
  { filter := filter, sortStr := sortStr, projStr := projStr,
    page := page, limit := limit, skip := (page - 1) * limit }

/-- Three-way comparison of integers (the document store's comparison of
date and number fields). -/
def intCmp (a b : Int) : Ordering :=
  if a < b then Ordering.lt else if a = b then Ordering.eq else Ordering.gt

/-- Three-way comparison of characters by code point. -/
def charCmp (a b : Char) : Ordering :=
  if a.toNat < b.toNat then Ordering.lt
  else if a.toNat = b.toNat then Ordering.eq
  else Ordering.gt

/-- Lexicographic comparison of character lists (the document store's
comparison of string fields). -/
def charListCmp : List Char → List Char → Ordering
  | [], [] => Ordering.eq
  | [], _ :: _ => Ordering.lt
  | _ :: _, [] => Ordering.gt
  | a :: as, b :: bs =>
      match charCmp a b with
      | Ordering.eq => charListCmp as bs
      | o => o

/-- Lexicographic comparison of strings. -/
def strCmp (a b : String) : Ordering := charListCmp a.data b.data

/-- The value of a named document field as the store's filter sees it
(`none` for a field no document carries). -/
def taskFieldStr (t : Task) (k : String) : Option String :=
  if k = "title" then some t.title
  else if k = "description" then t.description
  else if k = "category" then some t.category
  else if k = "priority" then some t.priority
  else if k = "completed" then some (if t.completed then "true" else "false")
  else none

/-- Exact-match filter evaluation: every filter pair must equal the
document's field. -/
def matchesFilter (t : Task) (f : List (String × String)) : Bool :=
  f.all (fun kv => taskFieldStr t kv.1 == some kv.2)

/-- Three-way comparison of two documents on one named field. -/
def cmpField (k : String) (a b : Task) : Ordering :=
  if k = "deadline" then intCmp a.deadline b.deadline
  else if k = "createdAt" then intCmp a.createdAt b.createdAt
  else if k = "updatedAt" then intCmp a.updatedAt b.updatedAt
  else if k = "title" then strCmp a.title b.title
  else if k = "category" then strCmp a.category b.category
  else if k = "priority" then strCmp a.priority b.priority
  else if k = "completed" then
    intCmp (if a.completed then 1 else 0) (if b.completed then 1 else 0)
  else Ordering.eq

/-- One token of a Mongoose sort string: a leading '-' means descending. -/
def sortToken (tok : String) : String × Bool :=
  match tok.data with
  | '-' :: rest => (⟨rest⟩, true)
  | _ => (tok, false)

/-- Compare two documents under a token list, first difference wins. -/
def cmpTokens (toks : List (String × Bool)) (a b : Task) : Ordering :=
  match toks with
  | [] => Ordering.eq
  | (k, desc) :: rest =>
      match (if desc then (cmpField k a b).swap else cmpField k a b) with
      | Ordering.eq => cmpTokens rest a b
      | o => o

/-- The non-strict order a sort string induces on documents. -/
def taskLE (toks : List (String × Bool)) (a b : Task) : Bool :=
  match cmpTokens toks a b with
  | Ordering.gt => false
  | _ => true

/-- Execute the repository query: filter, stable sort (insertion sort
models the store's stable sort), then `skip`/`limit`. The projection only
prunes response fields and never drops documents, so it does not affect
the record sequence. -/
def runListQuery (lq : ListQuery) (st : Store) : List Task :=
  let filtered := st.tasks.filter (fun t => matchesFilter t lq.filter)
  let toks := (jsSplit ' ' lq.sortStr).map sortToken
  let sorted := List.insertionSort (fun a b => taskLE toks a b = true) filtered
  (sorted.drop lq.skip.toNat).take lq.limit.toNat

/-- The record sequence GET /tasks returns for a query string. -/
def listTasksResult (q : QueryParams) (st : Store) : List Task :=
  runListQuery (buildListQuery q) st

/-- GET /tasks: the full 200 envelope
`{ status: 'success', results: tasks.length, data: { tasks } }`. -/
def listEndpoint (q : QueryParams) (st : Store) : HttpResponse :=
  let tasks := listTasksResult q st
  sendJson 200 (Json.obj
    [("status", Json.str "success"), ("results", Json.num (tasks.length : Int)),
     ("data", Json.obj [("tasks", Json.arr (tasks.map taskJson))])])

/-! ## Spec-side description of the list query (for the refinement claim) -/

/-- Spec side: the filter keeps all query parameters except exactly the four
reserved control parameters, as exact-match conditions. -/
def specFilter (q : QueryParams) : List (String × String) :=
  List.filter
    (fun kv =>
      decide (kv.1 ≠ "page" ∧ kv.1 ≠ "sort" ∧ kv.1 ≠ "limit" ∧ kv.1 ≠ "fields")) q

/-- Spec side: the sort is the client's comma-separated field-name list when
present, else ascending `deadline`. -/
def specSortFields (q : QueryParams) : List String :=
  match lookupQ q "sort" with
  | some s => jsSplit ',' s
  | none => ["deadline"]

/-- Spec side: the projection is either all-fields-minus-the-internal
version marker, or an explicit comma-separated inclusion list. -/
inductive ProjSpec where
  | allButVersionKey
  | includeOnly (fields : List String)
  deriving DecidableEq

/-- Spec side: projection selection. -/
def specProjection (q : QueryParams) : ProjSpec :=
  match lookupQ q "fields" with
  | some s => ProjSpec.includeOnly (jsSplit ',' s)
  | none => ProjSpec.allButVersionKey

/-- Render a spec-side projection as the Mongoose `select` string. -/
def renderProjection : ProjSpec → String
  | ProjSpec.allButVersionKey => "-__v"
  | ProjSpec.includeOnly fs => jsJoin " " fs

/-- Spec side: page number, defaulting to 1 when unspecified. -/
def specPage (q : QueryParams) : Int :=
  ((lookupQ q "page").bind jsParseInt).getD 1

/-- Spec side: page size, defaulting to 10 when unspecified. -/
def specLimit (q : QueryParams) : Int :=
  ((lookupQ q "limit").bind jsParseInt).getD 10

/-- A supplied `page` parameter parses to a positive integer (the sensible
client domain on which the claim's reading of the defaults is stated). -/
def pageParamOk (q : QueryParams) : Bool :=
  match lookupQ q "page" with
  | none => true
  | some s => match jsParseInt s with
    | some n => decide (0 < n)
    | none => false

/-- A supplied `limit` parameter parses to a positive integer. -/
def limitParamOk (q : QueryParams) : Bool :=
  match lookupQ q "limit" with
  | none => true
  | some s => match jsParseInt s with
    | some n => decide (0 < n)
    | none => false

/-- A supplied `sort` parameter is truthy (non-empty): the domain on which
the claim's "comma-separated value when present" reading coincides with the
code's truthiness guard. -/
def sortParamOk (q : QueryParams) : Bool :=
  match lookupQ q "sort" with
  | none => true
  | some s => jsTruthy s

/-- A supplied `fields` parameter is truthy (non-empty). -/
def fieldsParamOk (q : QueryParams) : Bool :=
  match lookupQ q "fields" with
  | none => true
  | some s => jsTruthy s

/-- The ascending-deadline order of the spec. -/
def deadlineLe : Task → Task → Prop := fun a b => a.deadline ≤ b.deadline

instance : DecidableRel deadlineLe := fun a b => Int.decLe a.deadline b.deadline

instance : IsTotal Task deadlineLe :=
  ⟨fun a b => Int.le_total a.deadline b.deadline⟩

instance : IsTrans Task deadlineLe :=
  ⟨fun _ _ _ hab hbc => le_trans hab hbc⟩

/-! ## Concrete fixtures used by witnesses and counterexamples -/

/-- A sample stored task. -/
def sampleTask (i : Nat) (dl : Int) : Task :=
  { id := i, title := "Test Task", description := none, category := "Work",
    priority := "Low", deadline := dl, completed := false,
    createdAt := 0, updatedAt := 0 }

/-- A store holding one task with id 1. -/
def demoStore : Store := { tasks := [sampleTask 1 5000], nextId := 2 }

/-- An empty store. -/
def emptyStore : Store := { tasks := [], nextId := 1 }

/-- A store holding eleven tasks (ids 0-10, deadlines descending so that
sorting is visible). -/
def bigStore : Store :=
  { tasks := (List.range 11).map (fun i => sampleTask i (100 - (i : Int))), nextId := 11 }

/-- An update payload whose only field is a deadline strictly in the past
relative to validation time 1000. -/
def pastDeadlinePayload : RawPayload := { deadline := some (JVal.jdate 999) }

/-- A valid update payload (title only). -/
def titleUpdatePayload : RawPayload := { title := some (JVal.jstr "Updated Task") }

/-- A create payload that is valid at validation time 1000. -/
def goodCreatePayload : RawPayload :=
  { title := some (JVal.jstr "  Buy milk  "),
    description := some (JVal.jstr " weekly errand "),
    category := some (JVal.jstr "Personal"),
    priority := some (JVal.jstr "High"),
    deadline := some (JVal.jdate 2000),
    completed := some (JVal.jbool true),
    unknown := [("hacker", JVal.jstr "field")] }

/-- A create payload whose `priority` is outside the enumeration but whose
other fields are valid. -/
def badPriorityPayload : RawPayload :=
  { title := some (JVal.jstr "Test Task"),
    category := some (JVal.jstr "Work"),
    priority := some (JVal.jstr "Urgent"),
    deadline := some (JVal.jdate 2000) }

/-- A create payload violating two fields at once (title too short,
priority outside the enumeration). -/
def doublyBadPayload : RawPayload :=
  { title := some (JVal.jstr "ab"),
    category := some (JVal.jstr "Work"),
    priority := some (JVal.jstr "Urgent"),
    deadline := some (JVal.jdate 2000) }

/-- The error shape of a malformed-JSON request body (an Express
`SyntaxError` with status 400 and a `body` property). -/
def malformedJsonErr : ErrShape :=
  { message := "Unexpected token o in JSON at position 1", isSyntaxError := true }

/-- The error shape of a Mongoose cast error on `_id`. -/
def castErrFixture : ErrShape :=
  { message := "Cast to ObjectId failed", isCastError := true,
    castPath := "_id", castValue := "abc" }

/-- The error shape of a Mongoose validation error. -/
def validationErrFixture : ErrShape := mongooseValidationShape ["Task priority is required"]

/-- The error shape of a MongoDB duplicate-key error. -/
def dupErrFixture : ErrShape :=
  { message := "E11000 duplicate key error", code := some 11000, errmsgValue := "\"x\"" }

/-- A sample list query exercising filtering, sorting, projection and an
explicit page. -/
def sampleQuery : QueryParams :=
  [("category", "Work"), ("page", "2"), ("sort", "-priority,deadline"),
   ("fields", "title,deadline")]

/-! ## Helper lemmas -/

set_option maxRecDepth 40000 in
/-- The decimal rendering of a three-digit status code starts with '4'
exactly when the code is in the 4xx class. -/
theorem statusCodeStartsWith4_eq_is4xx :
    ∀ n : Nat, n < 1000 → 100 ≤ n → statusCodeStartsWith4 n = is4xx n := by
  decide

/-- Reading the `status` string out of a response whose object body starts
with a `status` field, for a status code that does not strip the body. -/
theorem respStatusString_obj (code : Nat) (h1 : code ≠ 204) (h2 : code ≠ 304)
    (s : String) (rest : List (String × Json)) :
    respStatusString (sendJson code (Json.obj (("status", Json.str s) :: rest))) = some s := by
  simp [respStatusString, sendJson, jsonField, List.find?, h1, h2]

/-! ## C3: status string "fail" vs HTTP class -/

/-- C3 (counterexample): the malformed-JSON branch of the error middleware
answers 400 — a 4xx code — yet writes the status string "error", not
"fail", so the claimed equivalence fails on this path. -/
theorem malformedJson_status_error_counterexample :
    (errorHandler malformedJsonErr "production").statusCode = 400 ∧
    is4xx (errorHandler malformedJsonErr "production").statusCode = true ∧
    respStatusString (errorHandler malformedJsonErr "production") = some "error" ∧
    respStatusString (errorHandler malformedJsonErr "production") ≠ some "fail" := by
  refine ⟨rfl, rfl, rfl, ?_⟩
  decide

/-- C3 (amended): the "fail"-iff-4xx correspondence holds on the paths that
build an `AppError` — cast errors, storage validation errors, duplicate-key
errors (each answered 400/"fail") and operational `AppError`s with
three-digit status codes — while the malformed-JSON branch hard-codes
status "error" despite its 400 code. -/
theorem appError_status_fail_iff_4xx :
    (∀ (e : ErrShape) (env : String), e.isCastError = true → e.isValidationError = false →
        e.code ≠ some 11000 → e.isSyntaxError = false → e.isOperational = false →
        (errorHandler e env).statusCode = 400 ∧
        respStatusString (errorHandler e env) = some "fail") ∧
    (∀ (e : ErrShape) (env : String), e.isValidationError = true → e.code ≠ some 11000 →
        e.isSyntaxError = false → e.isOperational = false →
        (errorHandler e env).statusCode = 400 ∧
        respStatusString (errorHandler e env) = some "fail") ∧
    (∀ (e : ErrShape) (env : String), e.code = some 11000 → e.isSyntaxError = false →
        e.isOperational = false →
        (errorHandler e env).statusCode = 400 ∧
        respStatusString (errorHandler e env) = some "fail") ∧
    (∀ (msg env : String) (c : Nat), 100 ≤ c → c ≤ 999 →
        (errorHandler (appErrorShape (mkAppError msg c)) env).statusCode = c ∧
        (respStatusString (errorHandler (appErrorShape (mkAppError msg c)) env) = some "fail" ↔
          is4xx c = true)) := by
  have h400 : statusCodeStartsWith4 400 = true := by decide
  have hgen : ∀ (g : GenericErr) (env : String), g.statusCode = some 400 →
      g.status = some "fail" →
      (handleError g env).statusCode = 400 ∧
      respStatusString (handleError g env) = some "fail" := by
    intro g env hc hs
    constructor
    · simp [handleError, sendJson, hc]
    · show respStatusString (sendJson (g.statusCode.getD 500) (Json.obj
        (("status", Json.str (g.status.getD "error")) :: _))) = some "fail"
      rw [hc, hs]
      exact respStatusString_obj 400 (by decide) (by decide) "fail" _
  refine ⟨?_, ?_, ?_, ?_⟩
  · intro e env h1 h2 h3 h4 h5
    have : errorHandler e env =
        handleError (appErrorToGeneric (handleCastError e) e.stack) env := by
      simp [errorHandler, h1, h2, h3, h4, h5]
    rw [this]
    exact hgen _ env (by simp [appErrorToGeneric, handleCastError, mkAppError])
      (by simp [appErrorToGeneric, handleCastError, mkAppError, h400])
  · intro e env h1 h3 h4 h5
    have : errorHandler e env =
        handleError (appErrorToGeneric (handleValidationError e) e.stack) env := by
      simp [errorHandler, h1, h3, h4, h5]
    rw [this]
    exact hgen _ env (by simp [appErrorToGeneric, handleValidationError, mkAppError])
      (by simp [appErrorToGeneric, handleValidationError, mkAppError, h400])
  · intro e env h1 h4 h5
    have : errorHandler e env =
        handleError (appErrorToGeneric (handleDuplicateFieldError e) e.stack) env := by
      simp [errorHandler, h1, h4, h5]
    rw [this]
    exact hgen _ env (by simp [appErrorToGeneric, handleDuplicateFieldError, mkAppError])
      (by simp [appErrorToGeneric, handleDuplicateFieldError, mkAppError, h400])
  · intro msg env c hlo hhi
    have hrun : errorHandler (appErrorShape (mkAppError msg c)) env =
        sendJson c (Json.obj
          [("status", Json.str (if statusCodeStartsWith4 c then "fail" else "error")),
           ("message", Json.str msg)]) := by
      simp [errorHandler, appErrorShape, mkAppError]
    rw [hrun]
    refine ⟨by simp [sendJson], ?_⟩
    have hsw : statusCodeStartsWith4 c = is4xx c :=
      statusCodeStartsWith4_eq_is4xx c (by omega) hlo
    by_cases h204 : c = 204
    · subst h204
      simp [respStatusString, sendJson, is4xx]
    · by_cases h304 : c = 304
      · subst h304
        simp [respStatusString, sendJson, is4xx]
      · rw [show (Json.obj
          [("status", Json.str (if statusCodeStartsWith4 c then "fail" else "error")),
           ("message", Json.str msg)]) = Json.obj
          (("status", Json.str (if statusCodeStartsWith4 c then "fail" else "error")) ::
           [("message", Json.str msg)]) from rfl,
          respStatusString_obj c h204 h304]
        by_cases hb : statusCodeStartsWith4 c = true
        · rw [if_pos hb, ← hsw, hb]
          simp
        · rw [if_neg hb]
          rw [Bool.not_eq_true] at hb
          rw [← hsw, hb]
          simp

/-- C3 (witness): the four branches of `appError_status_fail_iff_4xx`
instantiated at concrete error fixtures. -/
theorem appError_status_fail_iff_4xx_witness :
    ((errorHandler castErrFixture "production").statusCode = 400 ∧
      respStatusString (errorHandler castErrFixture "production") = some "fail") ∧
    ((errorHandler validationErrFixture "production").statusCode = 400 ∧
      respStatusString (errorHandler validationErrFixture "production") = some "fail") ∧
    ((errorHandler dupErrFixture "production").statusCode = 400 ∧
      respStatusString (errorHandler dupErrFixture "production") = some "fail") ∧
    ((errorHandler (appErrorShape (mkAppError "Task not found" 404)) "production").statusCode
        = 404 ∧
      (respStatusString (errorHandler (appErrorShape (mkAppError "Task not found" 404))
          "production") = some "fail" ↔ is4xx 404 = true)) :=
  ⟨appError_status_fail_iff_4xx.1 castErrFixture "production" rfl rfl (by decide) rfl rfl,
   appError_status_fail_iff_4xx.2.1 validationErrFixture "production" rfl (by decide) rfl rfl,
   appError_status_fail_iff_4xx.2.2.1 dupErrFixture "production" rfl rfl rfl,
   appError_status_fail_iff_4xx.2.2.2 "Task not found" "production" 404 (by decide) (by decide)⟩

/-! ## C10: operational errors leak nothing and ignore NODE_ENV -/

/-- C10: an operational error (isOperational set, not the malformed-JSON
shape, status code not one of the body-stripping codes 204/304) is answered
with a body holding EXACTLY the status string and the message — no errors
array, no stack trace — and the whole response is identical for any two
values of NODE_ENV: the development-mode stack trace exists only on the
non-operational generic path. -/
theorem operationalError_body_exact (e : ErrShape) (env1 env2 : String)
    (hop : e.isOperational = true) (hsyn : e.isSyntaxError = false)
    (h204 : e.statusCode ≠ some 204) (h304 : e.statusCode ≠ some 304) :
    errorHandler e env1 = errorHandler e env2 ∧
    (errorHandler e env1).statusCode = e.statusCode.getD 500 ∧
    (errorHandler e env1).body =
      some (Json.obj [("status", Json.str (e.status.getD "error")),
                      ("message", Json.str e.message)]) := by
  have hcode : ((e.statusCode.getD 500) = 204 || (e.statusCode.getD 500) = 304) = false := by
    cases hsc : e.statusCode with
    | none => simp
    | some c =>
        rw [hsc] at h204 h304
        simp only [ne_eq, Option.some.injEq] at h204 h304
        simp [h204, h304]
  refine ⟨?_, ?_, ?_⟩ <;> simp [errorHandler, hop, hsyn, sendJson, hcode]

/-- C10 (witness): the not-found operational error produces the same
two-field body under NODE_ENV=development and NODE_ENV=production. -/
theorem operationalError_body_exact_witness :
    errorHandler (appErrorShape (mkAppError "Task not found" 404)) "development" =
      errorHandler (appErrorShape (mkAppError "Task not found" 404)) "production" ∧
    (errorHandler (appErrorShape (mkAppError "Task not found" 404)) "development").body =
      some (Json.obj [("status", Json.str "fail"), ("message", Json.str "Task not found")]) := by
  have h := operationalError_body_exact (appErrorShape (mkAppError "Task not found" 404))
    "development" "production" rfl rfl (by decide) (by decide)
  exact ⟨h.1, h.2.2⟩

/-- The response the error middleware produces for the controllers'
`next(new AppError('Task not found', 404))`. -/
theorem notFound_response (env : String) :
    errorHandler (appErrorShape (mkAppError "Task not found" 404)) env =
      sendJson 404 (Json.obj [("status", Json.str "fail"),
                              ("message", Json.str "Task not found")]) := rfl

/-! ## C5: absent repository results become 404, present ones succeed -/

/-- C5: for get-by-id, update and delete alike — an absent repository result
yields 404 with message "Task not found" and status "fail"; a present
result yields the success envelope (200 with the task for get and update,
204 for delete). -/
theorem handlers_absent_404_present_success (st st2 : Store) (i : Nat) (t : Task)
    (u : UpdateFields) (raw : RawPayload) (now : Int) (env : String) :
    (findById st i = none →
      getTaskEndpoint i st env =
        sendJson 404 (Json.obj [("status", Json.str "fail"),
                                ("message", Json.str "Task not found")])) ∧
    (findById st i = some t →
      getTaskEndpoint i st env = sendJson 200 (successTaskBody t)) ∧
    (validateUpdate raw now = Except.ok u →
      findByIdAndUpdate st i u now = (none, st2) →
      putTask i raw now st env =
        (sendJson 404 (Json.obj [("status", Json.str "fail"),
                                 ("message", Json.str "Task not found")]), st2, true)) ∧
    (validateUpdate raw now = Except.ok u →
      findByIdAndUpdate st i u now = (some t, st2) →
      putTask i raw now st env = (sendJson 200 (successTaskBody t), st2, true)) ∧
    (findByIdAndDelete st i = (none, st2) →
      (deleteTaskEndpoint i st env).1 =
        sendJson 404 (Json.obj [("status", Json.str "fail"),
                                ("message", Json.str "Task not found")])) ∧
    (findByIdAndDelete st i = (some t, st2) →
      (deleteTaskEndpoint i st env).1.statusCode = 204 ∧
      (deleteTaskEndpoint i st env).1.body = none) := by
  refine ⟨?_, ?_, ?_, ?_, ?_, ?_⟩
  · intro h
    simp [getTaskEndpoint, h, notFound_response]
  · intro h
    simp [getTaskEndpoint, h]
  · intro hv h
    simp [putTask, hv, h, notFound_response]
  · intro hv h
    simp [putTask, hv, h]
  · intro h
    simp [deleteTaskEndpoint, h, notFound_response]
  · intro h
    simp [deleteTaskEndpoint, h, sendJson]

/-- C5 (witness): all six branches exercised on a concrete store holding
the task with id 1 (id 2 is absent). -/
theorem handlers_absent_404_present_success_witness :
    (getTaskEndpoint 2 demoStore "production" =
      sendJson 404 (Json.obj [("status", Json.str "fail"),
                              ("message", Json.str "Task not found")])) ∧
    (getTaskEndpoint 1 demoStore "production" =
      sendJson 200 (successTaskBody (sampleTask 1 5000))) ∧
    (putTask 2 titleUpdatePayload 1000 demoStore "production" =
      (sendJson 404 (Json.obj [("status", Json.str "fail"),
                               ("message", Json.str "Task not found")]), demoStore, true)) ∧
    (putTask 1 titleUpdatePayload 1000 demoStore "production" =
      (sendJson 200 (successTaskBody
        (applyUpdate (sanitizeUpdate titleUpdatePayload) 1000 (sampleTask 1 5000))),
       { tasks := [applyUpdate (sanitizeUpdate titleUpdatePayload) 1000 (sampleTask 1 5000)],
         nextId := 2 }, true)) ∧
    ((deleteTaskEndpoint 2 demoStore "production").1 =
      sendJson 404 (Json.obj [("status", Json.str "fail"),
                              ("message", Json.str "Task not found")])) ∧
    ((deleteTaskEndpoint 1 demoStore "production").1.statusCode = 204 ∧
      (deleteTaskEndpoint 1 demoStore "production").1.body = none) := by
  refine ⟨?_, ?_, ?_, ?_, ?_, ?_⟩
  · exact (handlers_absent_404_present_success demoStore demoStore 2 (sampleTask 1 5000)
      (sanitizeUpdate titleUpdatePayload) titleUpdatePayload 1000 "production").1 rfl
  · exact (handlers_absent_404_present_success demoStore demoStore 1 (sampleTask 1 5000)
      (sanitizeUpdate titleUpdatePayload) titleUpdatePayload 1000 "production").2.1 rfl
  · exact (handlers_absent_404_present_success demoStore demoStore 2 (sampleTask 1 5000)
      (sanitizeUpdate titleUpdatePayload) titleUpdatePayload 1000 "production").2.2.1 rfl rfl
  · exact (handlers_absent_404_present_success demoStore
      { tasks := [applyUpdate (sanitizeUpdate titleUpdatePayload) 1000 (sampleTask 1 5000)],
        nextId := 2 } 1
      (applyUpdate (sanitizeUpdate titleUpdatePayload) 1000 (sampleTask 1 5000))
      (sanitizeUpdate titleUpdatePayload) titleUpdatePayload 1000 "production").2.2.2.1 rfl rfl
  · exact (handlers_absent_404_present_success demoStore demoStore 2 (sampleTask 1 5000)
      (sanitizeUpdate titleUpdatePayload) titleUpdatePayload 1000 "production").2.2.2.2.1 rfl
  · exact (handlers_absent_404_present_success demoStore { tasks := [], nextId := 2 } 1
      (sampleTask 1 5000)
      (sanitizeUpdate titleUpdatePayload) titleUpdatePayload 1000 "production").2.2.2.2.2 rfl

/-! ## C9: deleting an existing task answers 204 with an empty body -/

/-- C9: when `findByIdAndDelete` returns a document, the delete endpoint
answers HTTP 204 and — because Express strips bodies of 204 responses —
an empty body, and the store the repository produced is kept. -/
theorem delete_existing_204_empty (st st2 : Store) (i : Nat) (t : Task) (env : String)
    (h : findByIdAndDelete st i = (some t, st2)) :
    (deleteTaskEndpoint i st env).1.statusCode = 204 ∧
    (deleteTaskEndpoint i st env).1.body = none ∧
    (deleteTaskEndpoint i st env).2 = st2 := by
  simp [deleteTaskEndpoint, h, sendJson]

/-- C9 (witness): deleting id 1 from the demo store. -/
theorem delete_existing_204_empty_witness :
    (deleteTaskEndpoint 1 demoStore "production").1.statusCode = 204 ∧
    (deleteTaskEndpoint 1 demoStore "production").1.body = none ∧
    (deleteTaskEndpoint 1 demoStore "production").2 = { tasks := [], nextId := 2 } :=
  delete_existing_204_empty demoStore { tasks := [], nextId := 2 } 1 (sampleTask 1 5000)
    "production" rfl

/-! ## C1: the update schema DOES re-apply the deadline-in-future check -/

/-- C1 (counterexample): an update payload whose only field is a past
deadline (999 at validation time 1000) satisfies every other per-field
constraint, yet the update validation REJECTS it — `updateTaskSchema`
carries `.min('now')` on `deadline` — and the request is answered 400
before any repository operation runs. -/
theorem update_past_deadline_counterexample :
    validateUpdate pastDeadlinePayload 1000 =
      Except.error [⟨"deadline", "Deadline must be in the future"⟩] ∧
    (putTask 1 pastDeadlinePayload 1000 demoStore "production").1.statusCode = 400 ∧
    (putTask 1 pastDeadlinePayload 1000 demoStore "production").2.2 = false :=
  ⟨rfl, rfl, rfl⟩

/-- C1 (amended): for every update payload carrying a deadline strictly
earlier than validation time, the update validation reports a `deadline`
error ("Deadline must be in the future") and the request is rejected with
400 before reaching the repository, leaving the store untouched; only the
storage-layer validator (`taskModel.js`, `isNew` guard) skips the check on
updates, and it is never consulted because the Joi layer rejects first. -/
theorem update_past_deadline_rejected (raw : RawPayload) (t now : Int) (i : Nat)
    (st : Store) (env : String)
    (hd : raw.deadline = some (JVal.jdate t)) (hlt : t < now) :
    (∃ errs, validateUpdate raw now = Except.error errs ∧
      (⟨"deadline", "Deadline must be in the future"⟩ : FieldError) ∈ errs) ∧
    (putTask i raw now st env).1.statusCode = 400 ∧
    (putTask i raw now st env).2.1 = st ∧
    (putTask i raw now st env).2.2 = false := by
  have hmem : (⟨"deadline", "Deadline must be in the future"⟩ : FieldError) ∈
      allUpdateErrors raw now := by
    simp [allUpdateErrors, hd, checkDeadline, hlt]
  have hne : allUpdateErrors raw now ≠ [] := by
    intro h
    rw [h] at hmem
    exact absurd hmem (List.not_mem_nil _)
  have hv : validateUpdate raw now = Except.error (allUpdateErrors raw now) := by
    simp [validateUpdate, hne]
  refine ⟨⟨allUpdateErrors raw now, hv, hmem⟩, ?_, ?_, ?_⟩ <;>
    simp [putTask, hv, validationErrorResponse, sendJson]

/-- C1 (witness): the amended statement instantiated at the concrete past
deadline payload. -/
theorem update_past_deadline_rejected_witness :
    (∃ errs, validateUpdate pastDeadlinePayload 1000 = Except.error errs ∧
      (⟨"deadline", "Deadline must be in the future"⟩ : FieldError) ∈ errs) ∧
    (putTask 7 pastDeadlinePayload 1000 emptyStore "development").1.statusCode = 400 ∧
    (putTask 7 pastDeadlinePayload 1000 emptyStore "development").2.1 = emptyStore ∧
    (putTask 7 pastDeadlinePayload 1000 emptyStore "development").2.2 = false :=
  update_past_deadline_rejected pastDeadlinePayload 999 1000 7 emptyStore "development"
    rfl (by decide)

/-! ## C6: schema-invalid create requests never reach the repository -/

/-- C6: a create payload whose `priority` value is outside
{Low, Medium, High} is answered 400 with the `validateRequest` envelope
(message "Validation error") carrying an error entry whose field is
`priority`; no repository operation is invoked and the store — in
particular its record count — is unchanged. -/
theorem create_invalid_priority_rejected (raw : RawPayload) (p : String) (now : Int)
    (st : Store) (env : String)
    (hp : raw.priority = some (JVal.jstr p))
    (hval : priorityValues.contains (jsTrim p) = false) :
    (∃ errs, validateCreate raw now = Except.error errs ∧
      (⟨"priority", "Priority must be one of: Low, Medium, High"⟩ : FieldError) ∈ errs ∧
      postTask raw now st env = (validationErrorResponse errs, st, false)) ∧
    (postTask raw now st env).1.statusCode = 400 ∧
    (postTask raw now st env).2.1 = st ∧
    ((postTask raw now st env).2.1).tasks.length = st.tasks.length ∧
    (postTask raw now st env).2.2 = false := by
  have hnot : jsTrim p ∉ priorityValues := by simpa using hval
  have hmem : (⟨"priority", "Priority must be one of: Low, Medium, High"⟩ : FieldError) ∈
      allCreateErrors raw now := by
    simp [allCreateErrors, hp, checkPriority, hnot]
  have hne : allCreateErrors raw now ≠ [] := by
    intro h
    rw [h] at hmem
    exact absurd hmem (List.not_mem_nil _)
  have hv : validateCreate raw now = Except.error (allCreateErrors raw now) := by
    simp [validateCreate, hne]
  refine ⟨⟨allCreateErrors raw now, hv, hmem, by simp [postTask, hv]⟩, ?_, ?_, ?_, ?_⟩ <;>
    simp [postTask, hv, validationErrorResponse, sendJson]

/-- C6 (witness): the concrete payload with priority "Urgent". -/
theorem create_invalid_priority_rejected_witness :
    (∃ errs, validateCreate badPriorityPayload 1000 = Except.error errs ∧
      (⟨"priority", "Priority must be one of: Low, Medium, High"⟩ : FieldError) ∈ errs ∧
      postTask badPriorityPayload 1000 demoStore "production" =
        (validationErrorResponse errs, demoStore, false)) ∧
    (postTask badPriorityPayload 1000 demoStore "production").1.statusCode = 400 ∧
    (postTask badPriorityPayload 1000 demoStore "production").2.1 = demoStore ∧
    ((postTask badPriorityPayload 1000 demoStore "production").2.1).tasks.length =
      demoStore.tasks.length ∧
    (postTask badPriorityPayload 1000 demoStore "production").2.2 = false :=
  create_invalid_priority_rejected badPriorityPayload "Urgent" 1000 demoStore "production"
    rfl (by decide)

/-! ## C4: how the list query is built -/

/-- C4 (counterexample): the claim prescribes "the comma-separated `sort`
value when present", but the code guards with JS truthiness
(`if (req.query.sort)`): at the query `?sort=` the parameter IS present
with value `""`, the claim's description yields the sort string `""`,
yet the program falls back to the default ascending `deadline`. -/
theorem listQuery_empty_sort_counterexample :
    lookupQ [("sort", "")] "sort" = some "" ∧
    jsJoin " " (specSortFields [("sort", "")]) = "" ∧
    (buildListQuery [("sort", "")]).sortStr = "deadline" ∧
    (buildListQuery [("sort", "")]).sortStr ≠ jsJoin " " (specSortFields [("sort", "")]) :=
  ⟨rfl, rfl, rfl, by decide⟩

/-- C4 (amended): the repository query `getAllTasks` builds agrees with the
spec-side description — filter keeping every query parameter except exactly
`page`/`sort`/`limit`/`fields`; sort the client's comma-separated list,
else ascending `deadline`; projection the client's comma-separated
inclusion list, else all fields minus `__v`; pagination page default 1,
limit default 10, `skip = (page-1)*limit` — on the client domain where a
supplied `sort`/`fields` value is non-empty (JS truthiness sends an empty
string to the default) and a supplied `page`/`limit` value parses to a
positive integer (`parseInt(x) || d` sends 0 and NaN to the default). -/
theorem listQuery_built_as_specified (q : QueryParams)
    (hp : pageParamOk q = true) (hl : limitParamOk q = true)
    (hso : sortParamOk q = true) (hfo : fieldsParamOk q = true) :
    (buildListQuery q).filter = specFilter q ∧
    (buildListQuery q).sortStr = jsJoin " " (specSortFields q) ∧
    (buildListQuery q).projStr = renderProjection (specProjection q) ∧
    (buildListQuery q).page = specPage q ∧
    (buildListQuery q).limit = specLimit q ∧
    (buildListQuery q).skip = (specPage q - 1) * specLimit q := by
  have hfilter : (buildListQuery q).filter = specFilter q := by
    simp only [buildListQuery, specFilter]
    apply List.filter_congr
    intro kv _
    by_cases h1 : kv.1 = "page" <;> by_cases h2 : kv.1 = "sort" <;>
      by_cases h3 : kv.1 = "limit" <;> by_cases h4 : kv.1 = "fields" <;>
      simp [excludedFields, h1, h2, h3, h4]
  have hsort : (buildListQuery q).sortStr = jsJoin " " (specSortFields q) := by
    unfold sortParamOk at hso
    cases hs : lookupQ q "sort" with
    | none => simp [buildListQuery, specSortFields, hs, jsJoin]
    | some s =>
        rw [hs] at hso
        simp only [] at hso
        simp [buildListQuery, specSortFields, hs, hso]
  have hproj : (buildListQuery q).projStr = renderProjection (specProjection q) := by
    unfold fieldsParamOk at hfo
    cases hs : lookupQ q "fields" with
    | none => simp [buildListQuery, specProjection, renderProjection, hs]
    | some s =>
        rw [hs] at hfo
        simp only [] at hfo
        simp [buildListQuery, specProjection, renderProjection, hs, hfo]
  have hpage : (buildListQuery q).page = specPage q := by
    unfold pageParamOk at hp
    cases hpg : lookupQ q "page" with
    | none => simp [buildListQuery, specPage, hpg, jsOrInt]
    | some s =>
        rw [hpg] at hp
        cases hps : jsParseInt s with
        | none => simp [hps] at hp
        | some n =>
            simp only [hps] at hp
            have hn : 0 < n := of_decide_eq_true hp
            have hnz : ¬ n = 0 := by omega
            simp [buildListQuery, specPage, hpg, hps, jsOrInt, hnz]
  have hlimit : (buildListQuery q).limit = specLimit q := by
    unfold limitParamOk at hl
    cases hlg : lookupQ q "limit" with
    | none => simp [buildListQuery, specLimit, hlg, jsOrInt]
    | some s =>
        rw [hlg] at hl
        cases hls : jsParseInt s with
        | none => simp [hls] at hl
        | some n =>
            simp only [hls] at hl
            have hn : 0 < n := of_decide_eq_true hl
            have hnz : ¬ n = 0 := by omega
            simp [buildListQuery, specLimit, hlg, hls, jsOrInt, hnz]
  have hskip : (buildListQuery q).skip =
      ((buildListQuery q).page - 1) * (buildListQuery q).limit := rfl
  exact ⟨hfilter, hsort, hproj, hpage, hlimit, by rw [hskip, hpage, hlimit]⟩

/-- C4 (witness): the sample query `category=Work&page=2&sort=-priority,
deadline&fields=title,deadline`. -/
theorem listQuery_built_as_specified_witness :
    (buildListQuery sampleQuery).filter = specFilter sampleQuery ∧
    (buildListQuery sampleQuery).sortStr = jsJoin " " (specSortFields sampleQuery) ∧
    (buildListQuery sampleQuery).projStr = renderProjection (specProjection sampleQuery) ∧
    (buildListQuery sampleQuery).page = specPage sampleQuery ∧
    (buildListQuery sampleQuery).limit = specLimit sampleQuery ∧
    (buildListQuery sampleQuery).skip = (specPage sampleQuery - 1) * specLimit sampleQuery :=
  listQuery_built_as_specified sampleQuery (by decide) (by decide) (by decide) (by decide)

/-- Ordered insertion is the same for pointwise-equivalent decidable
relations. -/
theorem orderedInsert_congr {α : Type} {r s : α → α → Prop}
    [DecidableRel r] [DecidableRel s] (h : ∀ a b, r a b ↔ s a b) (a : α) :
    ∀ l : List α, l.orderedInsert r a = l.orderedInsert s a
  | [] => rfl
  | b :: l => by
      by_cases hr : r a b
      · rw [List.orderedInsert, List.orderedInsert, if_pos hr, if_pos ((h a b).1 hr)]
      · rw [List.orderedInsert, List.orderedInsert, if_neg hr,
          if_neg (fun hs => hr ((h a b).2 hs)), orderedInsert_congr h a l]

/-- Insertion sort is the same for pointwise-equivalent decidable
relations. -/
theorem insertionSort_congr {α : Type} {r s : α → α → Prop}
    [DecidableRel r] [DecidableRel s] (h : ∀ a b, r a b ↔ s a b) :
    ∀ l : List α, List.insertionSort r l = List.insertionSort s l
  | [] => rfl
  | b :: l => by
      rw [List.insertionSort, List.insertionSort, insertionSort_congr h l,
        orderedInsert_congr h b]

/-- The order induced by the default sort string is the ascending-deadline
order. -/
theorem taskLE_deadline_iff (a b : Task) :
    (taskLE [("deadline", false)] a b = true) ↔ deadlineLe a b := by
  unfold taskLE cmpTokens cmpField intCmp deadlineLe
  rcases lt_trichotomy a.deadline b.deadline with h | h | h
  · simp [h]
    omega
  · simp [h, cmpTokens]
  · have h1 : ¬ a.deadline < b.deadline := by omega
    have h2 : ¬ a.deadline = b.deadline := by omega
    simp [h1, h2]
    omega

/-! ## C2: a bare list request returns the sorted FIRST PAGE, not all -/

/-- C2 (counterexample): on a store of eleven records, a list request with
no query parameters returns only ten of them — the default pagination
`limit = 10` applies even when no parameter is supplied, so the result
count does NOT equal the store's record count. -/
theorem list_default_truncates_counterexample :
    bigStore.tasks.length = 11 ∧
    (listTasksResult [] bigStore).length = 10 ∧
    (listTasksResult [] bigStore).length ≠ bigStore.tasks.length :=
  ⟨rfl, rfl, by decide⟩

/-- C2 (amended): a list request with no query parameters returns the
records sorted ascending by `deadline`, truncated to the default first
page of ten: the result is exactly `take 10` of the deadline-sorted store
and its count is `min 10 (store count)` — all records only when the store
holds at most ten. -/
theorem list_no_params_sorted_first_page (st : Store) :
    listTasksResult [] st = (List.insertionSort deadlineLe st.tasks).take 10 ∧
    (listTasksResult [] st).length = min 10 st.tasks.length ∧
    List.Sorted deadlineLe (listTasksResult [] st) := by
  have hf : List.filter (fun t => matchesFilter t []) st.tasks = st.tasks := by
    have hp : (fun t => matchesFilter t ([] : List (String × String))) =
        fun _ => true := funext fun t => rfl
    rw [hp, List.filter_true]
  have heq : listTasksResult [] st = (List.insertionSort deadlineLe st.tasks).take 10 := by
    show ((List.insertionSort (fun a b => taskLE [("deadline", false)] a b = true)
      (List.filter (fun t => matchesFilter t []) st.tasks)).drop 0).take 10 =
      (List.insertionSort deadlineLe st.tasks).take 10
    rw [hf, List.drop_zero, insertionSort_congr taskLE_deadline_iff]
  refine ⟨heq, ?_, ?_⟩
  · rw [heq, List.length_take, List.length_insertionSort]
  · rw [heq]
    exact List.Pairwise.sublist (List.take_sublist 10 _)
      (List.sorted_insertionSort deadlineLe st.tasks)

/-- Every error the title rule emits is tagged with field `title`. -/
theorem checkTitle_field (b : Bool) (v : Option JVal) (e : FieldError)
    (he : e ∈ checkTitle b v) : e.field = "title" := by
  unfold checkTitle at he
  rcases v with _ | (s | b' | t | n | _) <;> simp only [] at he <;>
    (repeat' split at he) <;> simp_all

/-- Every error the description rule emits is tagged with field
`description`. -/
theorem checkDescription_field (v : Option JVal) (e : FieldError)
    (he : e ∈ checkDescription v) : e.field = "description" := by
  unfold checkDescription at he
  rcases v with _ | (s | b' | t | n | _) <;> simp only [] at he <;>
    (repeat' split at he) <;> simp_all

/-- Every error the category rule emits is tagged with field `category`. -/
theorem checkCategory_field (b : Bool) (v : Option JVal) (e : FieldError)
    (he : e ∈ checkCategory b v) : e.field = "category" := by
  unfold checkCategory at he
  rcases v with _ | (s | b' | t | n | _) <;> simp only [] at he <;>
    (repeat' split at he) <;> simp_all

/-- Every error the priority rule emits is tagged with field `priority`. -/
theorem checkPriority_field (b : Bool) (v : Option JVal) (e : FieldError)
    (he : e ∈ checkPriority b v) : e.field = "priority" := by
  unfold checkPriority at he
  rcases v with _ | (s | b' | t | n | _) <;> simp only [] at he <;>
    (repeat' split at he) <;> simp_all

/-- Every error the deadline rule emits is tagged with field `deadline`. -/
theorem checkDeadline_field (b : Bool) (now : Int) (v : Option JVal) (e : FieldError)
    (he : e ∈ checkDeadline b now v) : e.field = "deadline" := by
  unfold checkDeadline at he
  rcases v with _ | (s | b' | t | n | _) <;> simp only [] at he <;>
    (repeat' split at he) <;> simp_all

/-- Every error the completed rule emits is tagged with field `completed`. -/
theorem checkCompleted_field (v : Option JVal) (e : FieldError)
    (he : e ∈ checkCompleted v) : e.field = "completed" := by
  unfold checkCompleted at he
  rcases v with _ | (s | b' | t | n | _) <;> simp only [] at he <;>
    (repeat' split at he) <;> simp_all

/-! ## C8: the validator sanitizes or reports EVERY violated field -/

/-- C8: on any raw payload the create validator either succeeds with the
sanitized mapping (unknown keys stripped, strings trimmed, `completed`
defaulted) or fails with the full error list: success happens exactly when
no field rule is violated; each violated field — regardless of whether an
earlier field already failed, since Joi runs with `abortEarly: false` —
contributes an entry carrying its own field name; and every reported entry
belongs to one of the six schema fields. -/
theorem validateCreate_reports_all (raw : RawPayload) (now : Int) :
    (validateCreate raw now = Except.ok (sanitizeCreate raw) ∨
      validateCreate raw now = Except.error (allCreateErrors raw now)) ∧
    (validateCreate raw now = Except.ok (sanitizeCreate raw) ↔
      allCreateErrors raw now = []) ∧
    (checkTitle true raw.title ≠ [] →
      ∃ e ∈ allCreateErrors raw now, e.field = "title") ∧
    (checkDescription raw.description ≠ [] →
      ∃ e ∈ allCreateErrors raw now, e.field = "description") ∧
    (checkCategory true raw.category ≠ [] →
      ∃ e ∈ allCreateErrors raw now, e.field = "category") ∧
    (checkPriority true raw.priority ≠ [] →
      ∃ e ∈ allCreateErrors raw now, e.field = "priority") ∧
    (checkDeadline true now raw.deadline ≠ [] →
      ∃ e ∈ allCreateErrors raw now, e.field = "deadline") ∧
    (checkCompleted raw.completed ≠ [] →
      ∃ e ∈ allCreateErrors raw now, e.field = "completed") ∧
    (∀ e ∈ allCreateErrors raw now,
      e.field = "title" ∨ e.field = "description" ∨ e.field = "category" ∨
      e.field = "priority" ∨ e.field = "deadline" ∨ e.field = "completed") := by
  refine ⟨?_, ?_, ?_, ?_, ?_, ?_, ?_, ?_, ?_⟩
  · by_cases he : allCreateErrors raw now = []
    · exact Or.inl (by simp [validateCreate, he])
    · exact Or.inr (by simp [validateCreate, he])
  · constructor
    · intro h
      by_cases he : allCreateErrors raw now = []
      · exact he
      · rw [show validateCreate raw now = Except.error (allCreateErrors raw now) from
          by simp [validateCreate, he]] at h
        exact absurd h (by simp)
    · intro he
      simp [validateCreate, he]
  · intro hne
    obtain ⟨e, he⟩ := List.exists_mem_of_ne_nil _ hne
    exact ⟨e, by simp [allCreateErrors, List.mem_append]; tauto,
      checkTitle_field true raw.title e he⟩
  · intro hne
    obtain ⟨e, he⟩ := List.exists_mem_of_ne_nil _ hne
    exact ⟨e, by simp [allCreateErrors, List.mem_append]; tauto,
      checkDescription_field raw.description e he⟩
  · intro hne
    obtain ⟨e, he⟩ := List.exists_mem_of_ne_nil _ hne
    exact ⟨e, by simp [allCreateErrors, List.mem_append]; tauto,
      checkCategory_field true raw.category e he⟩
  · intro hne
    obtain ⟨e, he⟩ := List.exists_mem_of_ne_nil _ hne
    exact ⟨e, by simp [allCreateErrors, List.mem_append]; tauto,
      checkPriority_field true raw.priority e he⟩
  · intro hne
    obtain ⟨e, he⟩ := List.exists_mem_of_ne_nil _ hne
    exact ⟨e, by simp [allCreateErrors, List.mem_append]; tauto,
      checkDeadline_field true now raw.deadline e he⟩
  · intro hne
    obtain ⟨e, he⟩ := List.exists_mem_of_ne_nil _ hne
    exact ⟨e, by simp [allCreateErrors, List.mem_append]; tauto,
      checkCompleted_field raw.completed e he⟩
  · intro e he
    simp [allCreateErrors, List.mem_append] at he
    rcases he with h | h | h | h | h | h
    · exact Or.inl (checkTitle_field true raw.title e h)
    · exact Or.inr (Or.inl (checkDescription_field raw.description e h))
    · exact Or.inr (Or.inr (Or.inl (checkCategory_field true raw.category e h)))
    · exact Or.inr (Or.inr (Or.inr (Or.inl (checkPriority_field true raw.priority e h))))
    · exact Or.inr (Or.inr (Or.inr (Or.inr (Or.inl
        (checkDeadline_field true now raw.deadline e h)))))
    · exact Or.inr (Or.inr (Or.inr (Or.inr (Or.inr
        (checkCompleted_field raw.completed e h)))))

/-- C8 (witness): on the payload violating both `title` (too short) and
`priority` (outside the enumeration), BOTH entries are reported — no early
exit. -/
theorem validateCreate_reports_all_witness :
    (∃ e ∈ allCreateErrors doublyBadPayload 1000, e.field = "title") ∧
    (∃ e ∈ allCreateErrors doublyBadPayload 1000, e.field = "priority") ∧
    validateCreate doublyBadPayload 1000 =
      Except.error (allCreateErrors doublyBadPayload 1000) := by
  have h := validateCreate_reports_all doublyBadPayload 1000
  refine ⟨h.2.2.1 (by decide), h.2.2.2.2.2.1 (by decide), ?_⟩
  rcases h.1 with hok | herr
  · exact absurd (h.2.1.mp hok) (by decide)
  · exact herr

/-- Dropping leading whitespace is idempotent. -/
theorem dropLeadingSpace_idem (l : List Char) :
    dropLeadingSpace (dropLeadingSpace l) = dropLeadingSpace l := by
  induction l with
  | nil => rfl
  | cons c cs ih =>
      by_cases h : isSpaceChar c = true
      · rw [dropLeadingSpace, if_pos h, ih]
      · have h1 : dropLeadingSpace (c :: cs) = c :: cs := by
          rw [dropLeadingSpace, if_neg h]
        rw [h1]
        exact h1

/-- `dropLeadingSpace l` is a suffix of `l`. -/
theorem dropLeadingSpace_suffix (l : List Char) : ∃ p, l = p ++ dropLeadingSpace l := by
  induction l with
  | nil => exact ⟨[], rfl⟩
  | cons c cs ih =>
      by_cases h : isSpaceChar c = true
      · obtain ⟨p, hp⟩ := ih
        refine ⟨c :: p, ?_⟩
        rw [dropLeadingSpace, if_pos h, List.cons_append, ← hp]
      · refine ⟨[], ?_⟩
        rw [dropLeadingSpace, if_neg h, List.nil_append]

/-- `dropLeadingSpace l` is empty or starts with a non-whitespace
character. -/
theorem dropLeadingSpace_head (l : List Char) :
    dropLeadingSpace l = [] ∨
      ∃ c cs, dropLeadingSpace l = c :: cs ∧ isSpaceChar c = false := by
  induction l with
  | nil => exact Or.inl rfl
  | cons c cs ih =>
      by_cases h : isSpaceChar c = true
      · rw [dropLeadingSpace, if_pos h]
        exact ih
      · refine Or.inr ⟨c, cs, ?_, by simpa using h⟩
        rw [dropLeadingSpace, if_neg h]

/-- A list that is empty or starts with a non-whitespace character is left
unchanged by `dropLeadingSpace`. -/
theorem dropLeadingSpace_noop (l : List Char)
    (h : ∀ c cs, l = c :: cs → isSpaceChar c = false) : dropLeadingSpace l = l := by
  cases l with
  | nil => rfl
  | cons c cs => rw [dropLeadingSpace, if_neg (by simp [h c cs rfl])]

/-- Core of trim idempotence, at the level of character lists. -/
theorem trimList_idem (A : List Char) :
    dropLeadingSpace ((dropLeadingSpace
      ((dropLeadingSpace ((dropLeadingSpace A.reverse).reverse)).reverse)).reverse) =
    dropLeadingSpace ((dropLeadingSpace A.reverse).reverse) := by
  set C := dropLeadingSpace A.reverse with hCdef
  set T := dropLeadingSpace C.reverse with hTdef
  obtain ⟨p, hp⟩ := dropLeadingSpace_suffix C.reverse
  rw [← hTdef] at hp
  have hC2 : C = T.reverse ++ p.reverse := by
    have h := congrArg List.reverse hp
    rw [List.reverse_reverse, List.reverse_append] at h
    exact h
  have hTrev : dropLeadingSpace T.reverse = T.reverse := by
    apply dropLeadingSpace_noop
    intro c cs hcons
    rcases dropLeadingSpace_head A.reverse with h0 | ⟨c', cs', hc', hns⟩
    · rw [← hCdef] at h0
      rw [h0] at hC2
      have hnil := (List.append_eq_nil.mp hC2.symm).1
      rw [hcons] at hnil
      exact absurd hnil (by simp)
    · rw [← hCdef] at hc'
      rw [hc', hcons, List.cons_append] at hC2
      injection hC2 with h1 _
      rw [← h1]
      exact hns
  rw [hTrev, List.reverse_reverse, hTdef]
  exact dropLeadingSpace_idem _

/-- JavaScript `trim` is idempotent. -/
theorem jsTrim_idem (s : String) : jsTrim (jsTrim s) = jsTrim s :=
  congrArg String.mk (trimList_idem s.data)

/-! ## C7: create followed by get-by-id round-trips the business fields -/

/-- C7: for every payload that passes create validation (with the deadline
strictly in the future, as §3 requires of valid create payloads — this also
satisfies the storage layer's strict `value > now` re-check), the POST
pipeline persists a task, answers 201 with it, and a get-by-id on the
generated id returns a task whose business fields equal the sanitized
(trimmed, defaulted) submitted values, together with the generated id and
both timestamps. -/
theorem create_get_roundtrip (raw : RawPayload) (now : Int) (st : Store) (env : String)
    (f : CreateFields)
    (hv : validateCreate raw now = Except.ok f)
    (hd : now < f.deadline)
    (hfresh : ∀ u ∈ st.tasks, u.id ≠ st.nextId) :
    ∃ t st2,
      postTask raw now st env = (sendJson 201 (successTaskBody t), st2, true) ∧
      findById st2 t.id = some t ∧
      t.id = st.nextId ∧ t.createdAt = now ∧ t.updatedAt = now ∧
      t.title = f.title ∧ t.description = f.description ∧ t.category = f.category ∧
      t.priority = f.priority ∧ t.deadline = f.deadline ∧ t.completed = f.completed := by
  -- A successful validation means no field rule fired.
  have he : allCreateErrors raw now = [] := by
    by_cases h : allCreateErrors raw now = []
    · exact h
    · rw [show validateCreate raw now = Except.error (allCreateErrors raw now) from by
        simp [validateCreate, h]] at hv
      exact absurd hv (by simp)
  have hfeq : f = sanitizeCreate raw := by
    rw [show validateCreate raw now = Except.ok (sanitizeCreate raw) from by
      simp [validateCreate, he]] at hv
    injection hv with h
    exact h.symm
  have hs6 := he
  simp only [allCreateErrors, List.append_eq_nil] at hs6
  obtain ⟨⟨⟨⟨⟨ht, hdsc⟩, hcat⟩, hpri⟩, hdl⟩, hcmp⟩ := hs6
  -- Shape of each accepted field.
  have htitle : ∃ s, raw.title = some (JVal.jstr s) ∧ ¬ jsTrim s = "" ∧
      ¬ strLen (jsTrim s) < 3 ∧ ¬ 100 < strLen (jsTrim s) := by
    rcases hraw : raw.title with _ | (s | b' | t' | n' | _) <;> rw [hraw] at ht
    case some.jstr =>
      by_cases h1 : jsTrim s = ""
      · simp [checkTitle, h1] at ht
      · by_cases h2 : strLen (jsTrim s) < 3
        · simp [checkTitle, h1, h2] at ht
        · by_cases h3 : 100 < strLen (jsTrim s)
          · simp [checkTitle, h1, h2, h3] at ht
          · exact ⟨s, rfl, h1, h2, h3⟩
    all_goals simp [checkTitle] at ht
  have hdesc' : raw.description = none ∨
      ∃ dd, raw.description = some (JVal.jstr dd) ∧ ¬ 500 < strLen (jsTrim dd) := by
    rcases hraw : raw.description with _ | (dd | b' | t' | n' | _) <;> rw [hraw] at hdsc
    case none => exact Or.inl rfl
    case some.jstr =>
      by_cases h1 : 500 < strLen (jsTrim dd)
      · simp [checkDescription, h1] at hdsc
      · exact Or.inr ⟨dd, rfl, h1⟩
    all_goals simp [checkDescription] at hdsc
  have hcat' : ∃ c, raw.category = some (JVal.jstr c) ∧ jsTrim c ∈ categoryValues := by
    rcases hraw : raw.category with _ | (c | b' | t' | n' | _) <;> rw [hraw] at hcat
    case some.jstr =>
      simp [checkCategory] at hcat
      exact ⟨c, rfl, hcat⟩
    all_goals simp [checkCategory] at hcat
  have hpri' : ∃ p, raw.priority = some (JVal.jstr p) ∧ jsTrim p ∈ priorityValues := by
    rcases hraw : raw.priority with _ | (p | b' | t' | n' | _) <;> rw [hraw] at hpri
    case some.jstr =>
      simp [checkPriority] at hpri
      exact ⟨p, rfl, hpri⟩
    all_goals simp [checkPriority] at hpri
  have hdl' : ∃ d, raw.deadline = some (JVal.jdate d) ∧ ¬ d < now := by
    rcases hraw : raw.deadline with _ | (s' | b' | d | n' | _) <;> rw [hraw] at hdl
    case some.jdate =>
      by_cases h1 : d < now
      · simp [checkDeadline, h1] at hdl
      · exact ⟨d, rfl, h1⟩
    all_goals simp [checkDeadline] at hdl
  obtain ⟨s, hts, h1, h2, h3⟩ := htitle
  obtain ⟨c, hcs, hc1⟩ := hcat'
  obtain ⟨p, hps, hp1⟩ := hpri'
  obtain ⟨d, hds, hd1⟩ := hdl'
  -- The sanitized fields in terms of the raw ones.
  have hft : f.title = jsTrim s := by rw [hfeq]; simp [sanitizeCreate, getStr, hts]
  have hfc : f.category = jsTrim c := by rw [hfeq]; simp [sanitizeCreate, getStr, hcs]
  have hfp : f.priority = jsTrim p := by rw [hfeq]; simp [sanitizeCreate, getStr, hps]
  have hfdesc : f.description = none ∨
      ∃ dd, f.description = some (jsTrim dd) ∧ ¬ 500 < strLen (jsTrim dd) := by
    rcases hdesc' with hn | ⟨dd, hds2, hlen⟩
    · exact Or.inl (by rw [hfeq]; simp [sanitizeCreate, getStr, hn])
    · exact Or.inr ⟨dd, by rw [hfeq]; simp [sanitizeCreate, getStr, hds2], hlen⟩
  -- The storage layer's own validators all pass.
  have htne : ¬ jsTrim f.title = "" := by rw [hft, jsTrim_idem]; exact h1
  have htlen : ¬ 100 < strLen (jsTrim f.title) := by rw [hft, jsTrim_idem]; exact h3
  have hcne : ¬ jsTrim f.category = "" := by
    rw [hfc, jsTrim_idem]
    intro h0
    rw [h0] at hc1
    exact absurd hc1 (by decide)
  have hccont : jsTrim f.category ∈ categoryValues := by rw [hfc, jsTrim_idem]; exact hc1
  have hpne : ¬ f.priority = "" := by
    rw [hfp]
    intro h0
    rw [h0] at hp1
    exact absurd hp1 (by decide)
  have hpcont : f.priority ∈ priorityValues := by rw [hfp]; exact hp1
  have hm : mongooseCreateErrors f now = [] := by
    rcases hfdesc with hfn | ⟨dd, hfs, hlen⟩
    · simp [mongooseCreateErrors, htne, htlen, hcne, hccont, hpne, hpcont, hfn, hd]
    · have hlen2 : ¬ 500 < strLen (jsTrim (jsTrim dd)) := by rw [jsTrim_idem]; exact hlen
      simp [mongooseCreateErrors, htne, htlen, hcne, hccont, hpne, hpcont, hfs, hlen2, hd]
  -- Run the pipeline.
  refine ⟨mkCreated f now st,
          { tasks := st.tasks ++ [mkCreated f now st], nextId := st.nextId + 1 },
          ?_, ?_, rfl, rfl, rfl, ?_, ?_, ?_, rfl, rfl, rfl⟩
  · simp [postTask, hv, repoCreate, hm, mkCreated]
  · have hnone : st.tasks.find? (fun u => u.id = st.nextId) = none :=
      List.find?_eq_none.mpr (fun u hu => by simp [hfresh u hu])
    simp [findById, mkCreated, List.find?_append, hnone]
  · show jsTrim f.title = f.title
    rw [hft, jsTrim_idem]
  · show f.description.map jsTrim = f.description
    rcases hfdesc with hfn | ⟨dd, hfs, _⟩
    · rw [hfn]; rfl
    · rw [hfs]; simp [jsTrim_idem]
  · show jsTrim f.category = f.category
    rw [hfc, jsTrim_idem]

/-- C7 (witness): the concrete valid payload round-trips through an empty
store; the stored task carries the trimmed title/description, the enum
values, the submitted deadline and flag, id 1 and both timestamps. -/
theorem create_get_roundtrip_witness :
    ∃ t st2,
      postTask goodCreatePayload 1000 emptyStore "production" =
        (sendJson 201 (successTaskBody t), st2, true) ∧
      findById st2 t.id = some t ∧
      t.id = emptyStore.nextId ∧ t.createdAt = 1000 ∧ t.updatedAt = 1000 ∧
      t.title = (sanitizeCreate goodCreatePayload).title ∧
      t.description = (sanitizeCreate goodCreatePayload).description ∧
      t.category = (sanitizeCreate goodCreatePayload).category ∧
      t.priority = (sanitizeCreate goodCreatePayload).priority ∧
      t.deadline = (sanitizeCreate goodCreatePayload).deadline ∧
      t.completed = (sanitizeCreate goodCreatePayload).completed :=
  create_get_roundtrip goodCreatePayload 1000 emptyStore "production"
    (sanitizeCreate goodCreatePayload) rfl (by decide)
    (fun u hu => absurd hu (List.not_mem_nil u))

end TaskApi
